import Mathlib

/-!
Shallow embedding of the computational core of the PathoMetrics dashboard
(src/app.py): the healthy-range classifier, the patient lookup, the summary
statistics, and the scatter-plot trend estimator.

Numeric values are modelled as rationals.  Every numeric literal appearing in
the source (12.0, 16.5, 4.5, 11.0, 150, 450, 0, 200, the small test inputs)
is exactly representable in binary floating point and the only float
operations the classifier performs on them are comparisons, which agree with
the rational comparisons, so the ℚ model is faithful there.  Exceptional
control flow (Python KeyError / ValueError) is modelled with `Except`.
-/

/-- Python exceptions that the embedded code paths can raise.
`keyError` models Python's `KeyError` (a subclass of `LookupError`):
raised by `healthy_ranges[parameter]` on a missing key and by
`model.params['const']` when the constant column is absent.
`valueError` models the `ValueError` raised inside numpy/statsmodels on
empty or shape-mismatched regression input. -/
inductive PyError where
  | keyError
  | valueError
  deriving Repr, DecidableEq

/-- The dropdown column list, src/app.py line 14:
`numeric_columns = ['Hemoglobin (g/dL)', ...]`. -/
def numeric_columns : List String :=
  ["Hemoglobin (g/dL)", "White Blood Cell Count (10^3/μL)",
   "Platelet Count (10^3/μL)", "Cholesterol (mg/dL)"]

/-- The `healthy_ranges` dict literal, src/app.py lines 20-25, as an
association list (the dict's keys are pairwise distinct, so insertion order
and lookup agree with this list). -/
def healthy_ranges_entries : List (String × ℚ × ℚ) :=
  [("Hemoglobin (g/dL)", (12.0, 16.5)),
   ("White Blood Cell Count (10^3/μL)", (4.5, 11.0)),
   ("Platelet Count (10^3/μL)", (150, 450)),
   ("Cholesterol (mg/dL)", (0, 200))]

/-- Dict lookup `healthy_ranges[parameter]`: `some` interval when present,
`none` when the key is absent (Python raises `KeyError` there). -/
def healthy_ranges (parameter : String) : Option (ℚ × ℚ) :=
  (healthy_ranges_entries.find? (fun e => e.1 == parameter)).map (·.2)

/-- src/app.py lines 28-30:
`min_range, max_range = healthy_ranges[parameter]` followed by
`return min_range <= value <= max_range` (Python's chained comparison,
inclusive at both ends).  A missing key raises `KeyError`. -/
def is_within_healthy_range (value : ℚ) (parameter : String) :
    Except PyError Bool :=
  match healthy_ranges parameter with
  | none => .error .keyError
  | some (min_range, max_range) =>
      .ok (decide (min_range ≤ value ∧ value ≤ max_range))

/-- One row of the dataset: patient identifier, age, gender, and the four
named numeric lab measurements (the columns the app reads from the
spreadsheet). -/
structure Record where
  patientId : String
  age : ℚ
  gender : String
  hemoglobin : ℚ
  wbc : ℚ
  platelet : ℚ
  cholesterol : ℚ
  deriving Repr, DecidableEq

/-- Column access `row[param]` for the four numeric columns used by
`display_patient_details` (src/app.py lines 143-144). -/
def Record.col (r : Record) (param : String) : Option ℚ :=
  if param = "Hemoglobin (g/dL)" then some r.hemoglobin
  else if param = "White Blood Cell Count (10^3/μL)" then some r.wbc
  else if param = "Platelet Count (10^3/μL)" then some r.platelet
  else if param = "Cholesterol (mg/dL)" then some r.cholesterol
  else none

/-- src/app.py line 131: `df[df['Patient ID'] == patient_id]` — the boolean
mask keeps exactly the rows whose `Patient ID` equals the query, in their
original order. -/
def find_patient (d : List Record) (patient_id : String) : List Record :=
  d.filter (fun r => r.patientId == patient_id)

/-- src/app.py line 70: `df['Patient ID'].nunique()` — the number of
distinct patient identifiers. -/
def distinct_patient_count (d : List Record) : Nat :=
  ((d.map (·.patientId)).dedup).length

/-- Pandas `Series.mean()`: `NaN` (modelled `none`) on an empty series,
otherwise the arithmetic mean. -/
def series_mean (l : List ℚ) : Option ℚ :=
  if l.isEmpty then none else some (l.sum / l.length)

/-- Insert into a sorted list (ascending). -/
def insertSorted (a : ℚ) : List ℚ → List ℚ
  | [] => [a]
  | b :: bs => if a ≤ b then a :: b :: bs else b :: insertSorted a bs

/-- Insertion sort, ascending. -/
def sortQ (l : List ℚ) : List ℚ :=
  l.foldr insertSorted []

/-- Pandas `Series.median()`: `NaN` (modelled `none`) on an empty series,
otherwise the middle element of the sorted values (mean of the two middle
elements for even length). -/
def series_median (l : List ℚ) : Option ℚ :=
  if l.isEmpty then none
  else
    let s := sortQ l
    let n := l.length
    if n % 2 = 1 then s[n / 2]?
    else match s[n / 2 - 1]?, s[n / 2]? with
      | some a, some b => some ((a + b) / 2)
      | _, _ => none

/-- The square of pandas `Series.std()` (sample standard deviation,
`ddof=1`): the sample variance.  `Series.std()` is its square root, which
is irrational in general; the square keeps the definition executable over ℚ
and is `none` (NaN) in exactly the same cases as `std` — fewer than two
values. -/
def series_var (l : List ℚ) : Option ℚ :=
  if l.length < 2 then none
  else
    let m := l.sum / l.length
    some ((l.map (fun x => (x - m) ^ 2)).sum / (l.length - 1))

/-- src/app.py line 71: the mean of the `Age` column. -/
def mean_age (d : List Record) : Option ℚ :=
  series_mean (d.map (·.age))

/-- src/app.py line 72: the median of the `Hemoglobin (g/dL)` column. -/
def median_hemoglobin (d : List Record) : Option ℚ :=
  series_median (d.map (·.hemoglobin))

/-- src/app.py line 73: the (squared) sample standard deviation of the
`Platelet Count (10^3/μL)` column. -/
def var_platelet (d : List Record) : Option ℚ :=
  series_var (d.map (·.platelet))

/-- src/app.py line 60: the caption
`f"Cholesterol: Less than {healthy_ranges['Cholesterol (mg/dL)'][1]} mg/dL"`.
The upper endpoint is the integer `200`, which Python formats as `200`. -/
def cholesterol_caption : String :=
  "Cholesterol: Less than " ++ toString (200 : ℤ) ++ " mg/dL"

/-- The result of `update_scatter_plot`'s trendline computation,
src/app.py lines 163-177: the sampled polyline plus the fitted intercept
(`model.params['const']`) and slope (`model.params[x_variable]`). -/
structure TrendResult where
  xs : List ℚ
  ys : List ℚ
  intercept : ℚ
  slope : ℚ
  deriving Repr, DecidableEq

/-- Mean of a list, total (used only on nonempty lists below). -/
def qmean (l : List ℚ) : ℚ :=
  l.sum / l.length

/-- Centered sum of squares `Σ (x_i - mean x)^2` — `var(x)` up to the
positive factor `1/(n-1)`, so `var(x) > 0` iff `sxx x ≠ 0`. -/
def sxx (x : List ℚ) : ℚ :=
  (x.map (fun t => (t - qmean x) ^ 2)).sum

/-- Centered sum of products `Σ (x_i - mean x) * (y_i - mean y)` —
`cov(x,y)` up to the factor `1/(n-1)`. -/
def sxy (x y : List ℚ) : ℚ :=
  ((x.zip y).map (fun p => (p.1 - qmean x) * (p.2 - qmean y))).sum

/-- Sample covariance `cov(x,y)` with the `1/(n-1)` normalisation. -/
def covS (x y : List ℚ) : ℚ :=
  sxy x y / ((x.length : ℚ) - 1)

/-- Sample variance `var(x)` with the `1/(n-1)` normalisation. -/
def varS (x : List ℚ) : ℚ :=
  sxx x / ((x.length : ℚ) - 1)

/-- The skip test of `statsmodels.api.add_constant` (default
`has_constant='skip'`): a column that is constant AND everywhere nonzero is
taken as an existing constant, so no `const` column is added.  The source
calls `sm.add_constant(df[x_variable])` at line 164. -/
def isNonzeroConstCol (x : List ℚ) : Bool :=
  match x with
  | [] => false
  | a :: rest => decide (a ≠ 0) && rest.all (fun t => t == a)

/-- `numpy.linspace start stop num`: `num` evenly spaced samples over the
closed interval `[start, stop]`, step `(stop - start)/(num - 1)`.  Over ℚ
the last sample `start + (num-1) * step` is exactly `stop`. -/
def linspace (start stop : ℚ) (num : Nat) : List ℚ :=
  (List.range num).map
    (fun (i : Nat) => start + (i : ℚ) * ((stop - start) / ((num : ℚ) - 1)))

/-- Minimum of a list (`Series.min()`); the `0` default is never reached on
the nonempty lists this is applied to. -/
def listMin : List ℚ → ℚ
  | [] => 0
  | a :: rest => rest.foldl min a

/-- Maximum of a list (`Series.max()`). -/
def listMax : List ℚ → ℚ
  | [] => 0
  | a :: rest => rest.foldl max a

/-- The trendline computation of `update_scatter_plot`, src/app.py
lines 163-177, with the library calls modelled by their documented
behaviour:

* empty or shape-mismatched input: numpy/statsmodels raise `ValueError`
  (`np.ptp` on a zero-size array, resp. the OLS shape check);
* `sm.add_constant` (line 164) skips adding the `const` column when the x
  column is a nonzero constant, so `model.params['const']` (line 169)
  raises `KeyError`;
* otherwise `sm.OLS(y, X).fit()` computes the Moore-Penrose least-squares
  solution: the familiar closed form `b = sxy/sxx`, `a = mean y - b * mean x`
  when `sxx ≠ 0`, and the minimum-norm solution `b = 0`, `a = mean y` in the
  rank-deficient case `sxx = 0` (x all zeros) — no error, no NaN;
* `np.linspace(min x, max x, 100)` (line 168) samples the trendline and
  line 169 evaluates `a + b * t` at each sample. -/
def update_scatter_trend (x y : List ℚ) : Except PyError TrendResult :=
  if x.isEmpty || x.length != y.length then .error .valueError
  else if isNonzeroConstCol x then .error .keyError
  else
    let b := if sxx x = 0 then 0 else sxy x y / sxx x
    let a := qmean y - b * qmean x
    let x_range := linspace (listMin x) (listMax x) 100
    let y_range := x_range.map (fun t => a + b * t)
    .ok ⟨x_range, y_range, a, b⟩

/-- C1: for every value and every parameter present in the healthy-range
table, the classifier answers `true` exactly when the value lies in the
closed interval `[min, max]`, both endpoints included, and `false` exactly
otherwise. -/
theorem C1_range_classifier_inclusive (v mn mx : ℚ) (p : String)
    (h : healthy_ranges p = some (mn, mx)) :
    (is_within_healthy_range v p = .ok true ↔ mn ≤ v ∧ v ≤ mx) ∧
    (is_within_healthy_range v p = .ok false ↔ ¬(mn ≤ v ∧ v ≤ mx)) := by
  simp [is_within_healthy_range, h]

/-- Witness for C1 at the Hemoglobin upper boundary 16.5. -/
theorem C1_range_classifier_inclusive_witness :
    healthy_ranges "Hemoglobin (g/dL)" = some (12.0, 16.5) ∧
    ((is_within_healthy_range 16.5 "Hemoglobin (g/dL)" = .ok true ↔
        (12.0 : ℚ) ≤ 16.5 ∧ (16.5 : ℚ) ≤ 16.5) ∧
     (is_within_healthy_range 16.5 "Hemoglobin (g/dL)" = .ok false ↔
        ¬((12.0 : ℚ) ≤ 16.5 ∧ (16.5 : ℚ) ≤ 16.5))) :=
  ⟨rfl, C1_range_classifier_inclusive 16.5 12.0 16.5 "Hemoglobin (g/dL)" rfl⟩

/-- C6: for every value and every parameter absent from the healthy-range
table, the classifier fails with `KeyError` (a `LookupError` subclass) —
it neither returns a boolean nor raises anything else. -/
theorem C6_missing_parameter_lookup_error (v : ℚ) (p : String)
    (h : healthy_ranges p = none) :
    is_within_healthy_range v p = .error .keyError := by
  simp [is_within_healthy_range, h]

/-- Witness for C6 at an unconfigured parameter name. -/
theorem C6_missing_parameter_lookup_error_witness :
    healthy_ranges "Systolic BP (mmHg)" = none ∧
    is_within_healthy_range 0 "Systolic BP (mmHg)" = .error .keyError :=
  ⟨rfl, C6_missing_parameter_lookup_error 0 "Systolic BP (mmHg)" rfl⟩

/-- C7: patient lookup returns exactly the rows whose identifier equals the
query, in their original dataset order (a sublist of the dataset), with all
matches kept (the length equals the match count); an absent identifier thus
yields the empty sequence. -/
theorem C7_find_patient_exact_matches (d : List Record) (pid : String) :
    (find_patient d pid).Sublist d ∧
    (∀ r : Record, r ∈ find_patient d pid ↔ r ∈ d ∧ r.patientId = pid) ∧
    (find_patient d pid).length = d.countP (fun r => r.patientId == pid) := by
  refine ⟨List.filter_sublist d, fun r => ?_, ?_⟩
  · simp [find_patient]
  · rw [find_patient, List.countP_eq_length_filter]

/-- C9: `distinct_patient_count` counts the distinct patient identifiers of
a dataset, and returns 2 on the spec's example identifiers P1, P1, P2. -/
theorem C9_distinct_patient_count_correct :
    (∀ d : List Record,
        distinct_patient_count d = (d.map (·.patientId)).toFinset.card) ∧
    distinct_patient_count
      [⟨"P1", 30, "F", 13, 5, 200, 150⟩,
       ⟨"P1", 30, "F", 13.5, 5, 210, 150⟩,
       ⟨"P2", 40, "M", 14, 6, 250, 180⟩] = 2 := by
  constructor
  · intro d
    simp [distinct_patient_count, List.card_toFinset]
  · rfl

/-- C8: every dropdown column has exactly one entry in the healthy-range
table, so classifying any value of a UI-exposed parameter — in particular
any row's value read by `display_patient_details` — always returns a
boolean and never reaches the `KeyError` branch. -/
theorem C8_ui_parameters_always_classifiable :
    (∀ p ∈ numeric_columns,
        healthy_ranges_entries.countP (fun e => e.1 == p) = 1) ∧
    (∀ p ∈ numeric_columns, ∀ v : ℚ,
        ∃ b, is_within_healthy_range v p = .ok b) ∧
    (∀ r : Record, ∀ p ∈ numeric_columns,
        ∃ v b, r.col p = some v ∧ is_within_healthy_range v p = .ok b) := by
  refine ⟨?_, ?_, ?_⟩
  · intro p hp
    fin_cases hp <;> rfl
  · intro p hp v
    fin_cases hp
    · exact ⟨_, rfl⟩
    · exact ⟨_, rfl⟩
    · exact ⟨_, rfl⟩
    · exact ⟨_, rfl⟩
  · intro r p hp
    fin_cases hp
    · exact ⟨r.hemoglobin, _, rfl, rfl⟩
    · exact ⟨r.wbc, _, rfl, rfl⟩
    · exact ⟨r.platelet, _, rfl, rfl⟩
    · exact ⟨r.cholesterol, _, rfl, rfl⟩

/-- Witness for C8 at the Hemoglobin column and value 0. -/
theorem C8_ui_parameters_always_classifiable_witness :
    ("Hemoglobin (g/dL)" ∈ numeric_columns) ∧
    healthy_ranges_entries.countP
      (fun e => e.1 == "Hemoglobin (g/dL)") = 1 ∧
    (∃ b, is_within_healthy_range 0 "Hemoglobin (g/dL)" = .ok b) :=
  have hm : "Hemoglobin (g/dL)" ∈ numeric_columns :=
    List.mem_cons_self _ _
  ⟨hm, C8_ui_parameters_always_classifiable.1 _ hm,
       C8_ui_parameters_always_classifiable.2.1 _ hm 0⟩

/-- C10: the configured cholesterol range is the inclusive interval
(0, 200), every negative cholesterol value classifies as outside the
healthy range because of the lower bound 0, and the UI caption describes
only the upper bound. -/
theorem C10_cholesterol_negative_flagged (v : ℚ) (h : v < 0) :
    healthy_ranges "Cholesterol (mg/dL)" = some (0, 200) ∧
    is_within_healthy_range v "Cholesterol (mg/dL)" = .ok false ∧
    cholesterol_caption = "Cholesterol: Less than 200 mg/dL" := by
  refine ⟨rfl, ?_, rfl⟩
  have hne : ¬((0 : ℚ) ≤ v ∧ v ≤ 200) := fun hc => absurd hc.1 (not_le.2 h)
  show Except.ok (decide ((0 : ℚ) ≤ v ∧ v ≤ 200)) = Except.ok false
  rw [decide_eq_false hne]

/-- Witness for C10 at cholesterol value -1. -/
theorem C10_cholesterol_negative_flagged_witness :
    (-1 : ℚ) < 0 ∧
    (healthy_ranges "Cholesterol (mg/dL)" = some (0, 200) ∧
     is_within_healthy_range (-1) "Cholesterol (mg/dL)" = .ok false ∧
     cholesterol_caption = "Cholesterol: Less than 200 mg/dL") :=
  ⟨by norm_num, C10_cholesterol_negative_flagged (-1) (by norm_num)⟩

/-- C5 counterexample: on the empty dataset all three displayed summary
statistics evaluate to pandas NaN (modelled `none`) and are rendered, so
the claim that none of them silently returns NaN — that they instead fail
with an `EmptyDatasetError` — is false of the code (which defines no such
error). -/
theorem C5_empty_stats_counterexample :
    ¬(mean_age ([] : List Record) ≠ none ∧
      median_hemoglobin ([] : List Record) ≠ none ∧
      var_platelet ([] : List Record) ≠ none) := by
  intro h
  exact h.1 rfl

/-- C5 amended: on a zero-row dataset, `mean_age`, the hemoglobin median
and the platelet-count standard deviation all evaluate to NaN (modelled
`none`), which the layout formats and displays; no error is raised and no
`EmptyDatasetError` exists in the code. -/
theorem C5_empty_stats_are_nan (d : List Record) (h : d.length = 0) :
    mean_age d = none ∧ median_hemoglobin d = none ∧ var_platelet d = none := by
  rw [List.length_eq_zero] at h
  subst h
  exact ⟨rfl, rfl, rfl⟩

/-- Witness for the amended C5 at the empty dataset. -/
theorem C5_empty_stats_are_nan_witness :
    ([] : List Record).length = 0 ∧
    (mean_age ([] : List Record) = none ∧
     median_hemoglobin ([] : List Record) = none ∧
     var_platelet ([] : List Record) = none) :=
  ⟨rfl, C5_empty_stats_are_nan [] rfl⟩

/-- Sum of an affine image of a list. -/
theorem sum_map_affine (c m : ℚ) (l : List ℚ) :
    (l.map (fun t => c + m * t)).sum = c * l.length + m * l.sum := by
  induction l with
  | nil => simp
  | cons a t ih =>
    simp only [List.map_cons, List.sum_cons, ih, List.length_cons]
    push_cast
    ring

/-- The length of a nonempty list is nonzero as a rational. -/
theorem length_cast_ne_zero (l : List ℚ) (h : l ≠ []) :
    ((l.length : ℚ)) ≠ 0 := by
  have : 0 < l.length := List.length_pos.2 h
  exact_mod_cast this.ne'

/-- The mean of an affine image of a nonempty list. -/
theorem qmean_affine (c m : ℚ) (l : List ℚ) (h : l ≠ []) :
    qmean (l.map (fun t => c + m * t)) = c + m * qmean l := by
  have hn := length_cast_ne_zero l h
  rw [qmean, qmean, List.length_map, sum_map_affine]
  field_simp

/-- Sum of a constant list. -/
theorem sum_of_const (a : ℚ) (l : List ℚ) (h : ∀ t ∈ l, t = a) :
    l.sum = a * l.length := by
  induction l with
  | nil => simp
  | cons b t ih =>
    have hb := h b (List.mem_cons_self b t)
    have ht := ih (fun u hu => h u (List.mem_cons_of_mem b hu))
    simp only [List.sum_cons, ht, hb, List.length_cons]
    push_cast
    ring

/-- A column that passes `add_constant`'s skip test is constant, so its
centered sum of squares vanishes. -/
theorem sxx_eq_zero_of_const (x : List ℚ) (h : isNonzeroConstCol x = true) :
    sxx x = 0 := by
  match x with
  | [] => simp [isNonzeroConstCol] at h
  | a :: rest =>
    simp only [isNonzeroConstCol, Bool.and_eq_true, decide_eq_true_eq,
      List.all_eq_true, beq_iff_eq] at h
    have hall : ∀ t ∈ a :: rest, t = a := by
      intro t ht
      rcases List.mem_cons.1 ht with h1 | h2
      · exact h1
      · exact h.2 t h2
    have hq : qmean (a :: rest) = a := by
      rw [qmean, sum_of_const a _ hall]
      have hn := length_cast_ne_zero (a :: rest) (List.cons_ne_nil a rest)
      field_simp
    rw [sxx]
    apply List.sum_eq_zero
    intro z hz
    rcases List.mem_map.1 hz with ⟨t, ht, rfl⟩
    rw [hq, hall t ht]
    ring

/-- Zipping a list with its own image collapses to a single map. -/
theorem zip_self_map (f : ℚ → ℚ) (l : List ℚ) :
    l.zip (l.map f) = l.map (fun a => (a, f a)) := by
  induction l with
  | nil => rfl
  | cons a t ih => simp [ih]

/-- Centered sum of products against an affine image of the same list. -/
theorem sxy_map_affine (c m : ℚ) (x : List ℚ) (h : x ≠ []) :
    sxy x (x.map (fun t => c + m * t)) = m * sxx x := by
  rw [sxy, sxx, zip_self_map, List.map_map, qmean_affine c m x h,
    ← List.sum_map_mul_left]
  apply congrArg
  apply List.map_congr_left
  intro a _
  simp only [Function.comp_apply]
  ring

/-- Positive variance forces at least two observations. -/
theorem sxx_ne_zero_two_le (x : List ℚ) (h : sxx x ≠ 0) : 2 ≤ x.length := by
  match x with
  | [] => exact absurd (by simp [sxx]) h
  | [a] => exact absurd (by simp [sxx, qmean]) h
  | a :: b :: t => simp only [List.length_cons]; omega

/-- The linspace sample count. -/
theorem linspace_length (s e : ℚ) (n : Nat) : (linspace s e n).length = n := by
  rw [linspace, List.length_map, List.length_range]

/-- Closed form of each linspace sample. -/
theorem linspace_getElem (s e : ℚ) (n i : Nat) (h : i < n) :
    (linspace s e n)[i]? = some (s + (i : ℚ) * ((e - s) / ((n : ℚ) - 1))) := by
  rw [linspace, List.getElem?_map, List.getElem?_range h]
  rfl

/-- On valid regression input — x nonempty, equal lengths, positive
variance — the trendline computation succeeds, with the closed-form OLS
slope `sxy/sxx` and intercept `mean y - slope * mean x`, sampling 100
points of `a + b * t` over `[min x, max x]`. -/
theorem update_scatter_trend_ok (x y : List ℚ) (hne : x ≠ [])
    (hlen : x.length = y.length) (hvar : sxx x ≠ 0) :
    update_scatter_trend x y = .ok
      ⟨linspace (listMin x) (listMax x) 100,
       (linspace (listMin x) (listMax x) 100).map
         (fun t => (qmean y - sxy x y / sxx x * qmean x) + sxy x y / sxx x * t),
       qmean y - sxy x y / sxx x * qmean x,
       sxy x y / sxx x⟩ := by
  have hconst : isNonzeroConstCol x = false := by
    cases hc : isNonzeroConstCol x
    · rfl
    · exact absurd (sxx_eq_zero_of_const x hc) hvar
  have hempty : x.isEmpty = false := by
    cases x
    · exact absurd rfl hne
    · rfl
  rw [update_scatter_trend]
  simp [hempty, hlen, hconst, hvar]

/-- C2: fitting the trend to noiseless points `y_i = 2 + 3 * x_i` recovers
intercept 2 and slope 3 exactly, every sampled y-coordinate equals
`intercept + slope * x` for its paired sampled x-coordinate, and the fit is
the ordinary-least-squares closed form `b = cov(x,y)/var(x)`,
`a = mean y - b * mean x`. -/
theorem C2_trend_recovers_line (x : List ℚ) (hne : x ≠ [])
    (hvar : sxx x ≠ 0) :
    ∃ r : TrendResult,
      update_scatter_trend x (x.map (fun t => 2 + 3 * t)) = .ok r ∧
      r.intercept = 2 ∧ r.slope = 3 ∧
      r.ys = r.xs.map (fun t => r.intercept + r.slope * t) ∧
      r.slope = covS x (x.map (fun t => 2 + 3 * t)) / varS x ∧
      r.intercept =
        qmean (x.map (fun t => 2 + 3 * t)) - r.slope * qmean x := by
  have hlen : x.length = (x.map (fun t => 2 + 3 * t)).length :=
    (List.length_map _ _).symm
  have hb : sxy x (x.map (fun t => 2 + 3 * t)) / sxx x = 3 := by
    rw [sxy_map_affine 2 3 x hne, mul_div_assoc, div_self hvar, mul_one]
  have hy : qmean (x.map (fun t => 2 + 3 * t)) = 2 + 3 * qmean x :=
    qmean_affine 2 3 x hne
  have ha : qmean (x.map (fun t => 2 + 3 * t)) -
      sxy x (x.map (fun t => 2 + 3 * t)) / sxx x * qmean x = 2 := by
    rw [hy, hb]; ring
  refine ⟨_, update_scatter_trend_ok x _ hne hlen hvar, ha, hb, rfl, ?_, rfl⟩
  show sxy x (x.map (fun t => 2 + 3 * t)) / sxx x =
    covS x (x.map (fun t => 2 + 3 * t)) / varS x
  have h2 := sxx_ne_zero_two_le x hvar
  have hn1 : ((x.length : ℚ) - 1) ≠ 0 := by
    have h2q : (2 : ℚ) ≤ (x.length : ℚ) := by exact_mod_cast h2
    intro hz
    linarith
  rw [covS, varS]
  field_simp

/-- Witness for C2 at x = [1, 2, 3]. -/
theorem C2_trend_recovers_line_witness :
    (([1, 2, 3] : List ℚ) ≠ [] ∧ sxx [1, 2, 3] ≠ 0) ∧
    (∃ r : TrendResult,
      update_scatter_trend [1, 2, 3]
        (([1, 2, 3] : List ℚ).map (fun t => 2 + 3 * t)) = .ok r ∧
      r.intercept = 2 ∧ r.slope = 3 ∧
      r.ys = r.xs.map (fun t => r.intercept + r.slope * t) ∧
      r.slope = covS [1, 2, 3]
        (([1, 2, 3] : List ℚ).map (fun t => 2 + 3 * t)) / varS [1, 2, 3] ∧
      r.intercept = qmean (([1, 2, 3] : List ℚ).map (fun t => 2 + 3 * t)) -
        r.slope * qmean [1, 2, 3]) :=
  have hne : ([1, 2, 3] : List ℚ) ≠ [] := List.cons_ne_nil 1 [2, 3]
  have hvar : sxx [1, 2, 3] ≠ 0 := by norm_num [sxx, qmean]
  ⟨⟨hne, hvar⟩, C2_trend_recovers_line [1, 2, 3] hne hvar⟩

/-- C3: on valid regression input the trendline has exactly 100 sampled
x-coordinates, evenly spaced, spanning the closed interval
`[min x, max x]` with both endpoints included, and the i-th y-coordinate
is `intercept + slope * x_i`. -/
theorem C3_trend_sampling (x y : List ℚ) (hne : x ≠ [])
    (hlen : x.length = y.length) (hvar : sxx x ≠ 0) :
    ∃ r : TrendResult,
      update_scatter_trend x y = .ok r ∧
      r.xs.length = 100 ∧ r.ys.length = 100 ∧
      (∀ i : Nat, i < 100 → r.xs[i]? =
        some (listMin x + (i : ℚ) * ((listMax x - listMin x) / 99))) ∧
      r.xs[0]? = some (listMin x) ∧
      r.xs[99]? = some (listMax x) ∧
      (∀ i : Nat, i + 1 < 100 →
        r.xs[i + 1]?.getD 0 - r.xs[i]?.getD 0 =
          (listMax x - listMin x) / 99) ∧
      r.ys = r.xs.map (fun t => r.intercept + r.slope * t) := by
  refine ⟨_, update_scatter_trend_ok x y hne hlen hvar,
    linspace_length _ _ _, ?_, ?_, ?_, ?_, ?_, rfl⟩
  · rw [List.length_map]; exact linspace_length _ _ _
  · intro i hi
    rw [linspace_getElem _ _ _ _ hi]
    norm_num
  · rw [linspace_getElem _ _ _ 0 (by norm_num)]
    norm_num
  · rw [linspace_getElem _ _ _ 99 (by norm_num)]
    push_cast
    field_simp
    ring
  · intro i hi
    rw [linspace_getElem _ _ _ _ hi, linspace_getElem _ _ _ _ (by omega)]
    simp only [Option.getD_some]
    push_cast
    ring

/-- Witness for C3 at x = [1, 2, 3], y = [5, 6, 7]. -/
theorem C3_trend_sampling_witness :
    (([1, 2, 3] : List ℚ) ≠ [] ∧
     ([1, 2, 3] : List ℚ).length = ([5, 6, 7] : List ℚ).length ∧
     sxx [1, 2, 3] ≠ 0) ∧
    (∃ r : TrendResult,
      update_scatter_trend [1, 2, 3] [5, 6, 7] = .ok r ∧
      r.xs.length = 100 ∧ r.ys.length = 100 ∧
      (∀ i : Nat, i < 100 → r.xs[i]? =
        some (listMin [1, 2, 3] + (i : ℚ) *
          ((listMax [1, 2, 3] - listMin [1, 2, 3]) / 99))) ∧
      r.xs[0]? = some (listMin [1, 2, 3]) ∧
      r.xs[99]? = some (listMax [1, 2, 3]) ∧
      (∀ i : Nat, i + 1 < 100 →
        r.xs[i + 1]?.getD 0 - r.xs[i]?.getD 0 =
          (listMax [1, 2, 3] - listMin [1, 2, 3]) / 99) ∧
      r.ys = r.xs.map (fun t => r.intercept + r.slope * t)) :=
  have hne : ([1, 2, 3] : List ℚ) ≠ [] := List.cons_ne_nil 1 [2, 3]
  have hlen : ([1, 2, 3] : List ℚ).length = ([5, 6, 7] : List ℚ).length := rfl
  have hvar : sxx [1, 2, 3] ≠ 0 := by norm_num [sxx, qmean]
  ⟨⟨hne, hlen, hvar⟩, C3_trend_sampling [1, 2, 3] [5, 6, 7] hne hlen hvar⟩

/-- C4 counterexample: x = [0, 0, 0] has zero variance, a
precondition-violating input, yet the trendline computation succeeds — the
rank-deficient fit silently returns the minimum-norm flat trendline instead
of failing with any error, so the claim that every violating input fails
with InvalidInputError is false of the code (which defines no such
error). -/
theorem C4_zero_variance_no_error_counterexample :
    (update_scatter_trend [0, 0, 0] [1, 2, 3]).isOk = true := by
  simp [update_scatter_trend, isNonzeroConstCol, Except.isOk, Except.toBool]

/-- C4 amended: on zero-variance x with a nonzero constant value (such as
the spec's own test case [1, 1, 1]), `add_constant` skips the intercept
column and the lookup `model.params['const']` fails with `KeyError` (a
`LookupError`) — the code does not divide by zero, but the failure is this
lookup error, not an InvalidInputError; and on all-zero x it does not fail
at all. -/
theorem C4_nonzero_const_x_key_error (x y : List ℚ)
    (hlen : x.length = y.length) (hconst : isNonzeroConstCol x = true) :
    update_scatter_trend x y = .error .keyError := by
  match x with
  | [] => simp [isNonzeroConstCol] at hconst
  | a :: rest =>
    rw [update_scatter_trend]
    simp [hlen, hconst]

/-- Witness for the amended C4 at x = [1, 1, 1], y = [1, 2, 3]. -/
theorem C4_nonzero_const_x_key_error_witness :
    (([1, 1, 1] : List ℚ).length = ([1, 2, 3] : List ℚ).length ∧
     isNonzeroConstCol [1, 1, 1] = true) ∧
    update_scatter_trend [1, 1, 1] [1, 2, 3] = .error .keyError :=
  have h1 : ([1, 1, 1] : List ℚ).length = ([1, 2, 3] : List ℚ).length := rfl
  have h2 : isNonzeroConstCol [1, 1, 1] = true := by
    norm_num [isNonzeroConstCol]
  ⟨⟨h1, h2⟩, C4_nonzero_const_x_key_error [1, 1, 1] [1, 2, 3] h1 h2⟩
